import Mathlib

/-!
Verification of the alert-normalization and symbol-resolution pipeline of the
`my-webhook-proxy` repository.

The repository contains three near-duplicate drafts of one webhook proxy:
* `src/unnamed/part_000` — the CommonJS draft (static `SYMBOL_MAP`, `fetchWithTimeout`,
  `getStockNameFromSina` / `getStockNameFromTencent` / `getChineseStockName`,
  a signal-icon chooser, and `processMessage`);
* `src/api/webhook.js` — a debug-instrumented draft (single-line pre-formatter,
  "already formatted" skip, comma-format code matcher) followed by a TypeScript
  copy of the `part_000` draft;
* `src/unnamed/part_001` — a draft whose handler re-resolves codes found in an
  existing `标的: …(code)` parenthesized form.

All text is modelled as `List Char` (JS strings are sequences of code points for
the operations used here).  Network I/O is modelled by injecting, per provider
call, the outcome of the `fetch`: either a thrown error (network failure or
abort/timeout rejection) or a response with an `ok` flag and the body *after*
the GBK-family decode (byte-level decoding is outside the model, so providers
are injected post-decode).  JS `null`/`undefined` results are `Option.none`.
-/

/-! ## Character classes used by the source regexes -/

/-- JS regex `\s` / `String.trim` whitespace: the ASCII whitespace characters
plus the Unicode space separators, NBSP, BOM and the line separators. -/
def jsWs (c : Char) : Bool :=
  c = ' ' || c = '\t' || c = '\n' || c = '\r' || c = '\x0b' || c = '\x0c' ||
  c = '\u00A0' || c = '\u1680' || ('\u2000' ≤ c && c ≤ '\u200A') ||
  c = '\u2028' || c = '\u2029' || c = '\u202F' || c = '\u205F' ||
  c = '\u3000' || c = '\uFEFF'

/-- Characters matched by `.` in a JS regex without the `s` flag: everything
except the line terminators. -/
def notLineTerm (c : Char) : Bool :=
  !(c = '\n' || c = '\r' || c = '\u2028' || c = '\u2029')

/-- The class `[\s,]` of the single-line pre-formatter. -/
def isWsComma (c : Char) : Bool := jsWs c || c = ','

/-- The class `[A-Za-z0-9!_.-]` of the `part_000` instrument matcher. -/
def isSymCh (c : Char) : Bool :=
  c.isAlpha || c.isDigit || c = '!' || c = '_' || c = '.' || c = '-'

/-! ## Basic list-of-characters utilities -/

/-- `pfxOf pat l`: `pat` is a prefix of `l` (plain structural check). -/
def pfxOf : List Char → List Char → Bool
  | [], _ => true
  | _ :: _, [] => false
  | a :: as, b :: bs => a = b && pfxOf as bs

/-- `occursIn pat l`: `pat` occurs contiguously somewhere in `l`
(JS `String.prototype.includes`). -/
def occursIn (pat : List Char) : List Char → Bool
  | [] => pat.isEmpty
  | c :: rest => pfxOf pat (c :: rest) || occursIn pat rest

/-- JS `String.prototype.trim`. -/
def trimCL (l : List Char) : List Char :=
  ((l.dropWhile jsWs).reverse.dropWhile jsWs).reverse

/-- JS `String.prototype.split` on a one-character separator:
`"".split(sep) = [""]`, separators delimit (possibly empty) fields. -/
def splitOnCh (sep : Char) : List Char → List (List Char)
  | [] => [[]]
  | c :: rest =>
    let r := splitOnCh sep rest
    if c = sep then [] :: r
    else
      match r with
      | h :: t => (c :: h) :: t
      | [] => [[c]]

/-- JS `String.prototype.padStart(5, '0')`. -/
def padStart5 (s : List Char) : List Char :=
  List.replicate (5 - s.length) '0' ++ s

/-! ## Provider calls (`part_000` lines 62–105, mirrored in the other drafts) -/

/-- The observable outcome of one `fetch` of a quote provider: either the
promise rejected (network error, or the abort fired by the timeout), or a
response arrived with its `ok` flag and its body decoded from the GBK-family
encoding. -/
inductive FetchOutcome where
  | thrown : FetchOutcome
  | response (ok : Bool) (text : List Char) : FetchOutcome
deriving DecidableEq

/-- `part_000` `getStockNameFromSina` response handling: on throw or non-2xx
return null; otherwise `text.split('"')[1]?.split(',')[0]?.trim()` and
`name || null` (empty name is null). -/
def getStockNameFromSina : FetchOutcome → Option (List Char)
  | .thrown => none
  | .response ok text =>
    if !ok then none
    else
      match (splitOnCh '"' text).get? 1 with
      | none => none
      | some f =>
        let name := trimCL (((splitOnCh ',' f).get? 0).getD [])
        if name.isEmpty then none else some name

/-- `part_000` `getStockNameFromTencent` response handling: split on `~`,
`parts.length > 1 ? parts[1]?.trim() || null : null`. -/
def getStockNameFromTencent : FetchOutcome → Option (List Char)
  | .thrown => none
  | .response ok text =>
    if !ok then none
    else
      match (splitOnCh '~' text).get? 1 with
      | none => none
      | some p =>
        let name := trimCL p
        if name.isEmpty then none else some name

/-- `webhook.js` / `part_001` `getStockNameFromSina` variant: requires
`parts.length > 1 && parts[1] && parts[1].length > 1`, then returns
`parts[1].split(',')[0]` without trimming (possibly the empty string,
hence `some []` is a possible value, treated as falsy by the callers). -/
def getStockNameFromSinaW : FetchOutcome → Option (List Char)
  | .thrown => none
  | .response ok text =>
    if !ok then none
    else
      match (splitOnCh '"' text).get? 1 with
      | none => none
      | some p =>
        if 1 < p.length then some (((splitOnCh ',' p).get? 0).getD [])
        else none

/-- `webhook.js` / `part_001` `getStockNameFromTencent` variant:
`parts.length > 1 && parts[1] ? parts[1] : null`. -/
def getStockNameFromTencentW : FetchOutcome → Option (List Char)
  | .thrown => none
  | .response ok text =>
    if !ok then none
    else
      match (splitOnCh '~' text).get? 1 with
      | none => none
      | some p => if p.isEmpty then none else some p

/-- Numeric-market classification of `getChineseStockName` (`part_000`
lines 95–100; the `webhook.js` length/`\d+` tests are equivalent):
`/^\d{1,5}$/` is `hk`, `/^\d{6}$/` starting `6`/`5` is `sh`,
starting `0`/`3`/`1` is `sz`, anything else is unresolved. -/
def classifyMarket (code : List Char) : Option (List Char) :=
  if 1 ≤ code.length ∧ code.length ≤ 5 ∧ code.all Char.isDigit = true then
    some "hk".data
  else if code.length = 6 ∧ code.all Char.isDigit = true then
    if code.head? = some '6' ∨ code.head? = some '5' then some "sh".data
    else if code.head? = some '0' ∨ code.head? = some '3' ∨ code.head? = some '1' then
      some "sz".data
    else none
  else none

/-- The code as sent to Tencent (`finalCode` in the source): zero-padded to
five digits for the `hk` market only. -/
def tencentFinalCode (code mp : List Char) : List Char :=
  if mp = "hk".data then padStart5 code else code

/-- The Sina request URL (`part_000` line 66): the code is interpolated
verbatim, with no padding. -/
def sinaUrl (code mp : List Char) : List Char :=
  "https://hq.sinajs.cn/list=".data ++ mp ++ code

/-- The Tencent request URL (`part_000` line 81). -/
def tencentUrl (code mp : List Char) : List Char :=
  "https://qt.gtimg.cn/q=".data ++ mp ++ tencentFinalCode code mp

/-- The injected network: what each provider's `fetch` produces for a given
(code-as-sent, market) pair in the current request. -/
structure ProviderEnv where
  sina : List Char → List Char → FetchOutcome
  tencent : List Char → List Char → FetchOutcome

/-- Provider-A lookup as performed by `getChineseStockName`. -/
def sinaLookup (env : ProviderEnv) (code mp : List Char) : Option (List Char) :=
  getStockNameFromSina (env.sina code mp)

/-- Provider-B lookup as performed by `getChineseStockName`. -/
def tencentLookup (env : ProviderEnv) (code mp : List Char) : Option (List Char) :=
  getStockNameFromTencent (env.tencent (tencentFinalCode code mp) mp)

/-- `part_000` `getChineseStockName`: classify the market, then
`sina ?? tencent` (nullish fallback). -/
def getChineseStockName (env : ProviderEnv) (code : List Char) : Option (List Char) :=
  match classifyMarket code with
  | none => none
  | some mp =>
    match sinaLookup env code mp with
    | some n => some n
    | none => tencentLookup env code mp

/-- JS truthiness of a string-or-null value (`null`, `undefined` and `""`
are falsy). -/
def truthy : Option (List Char) → Bool
  | some s => !s.isEmpty
  | none => false

/-- `webhook.js` / `part_001` `getChineseStockName`: same classification, then
`if (chineseName) return chineseName;` (truthiness, so an empty Sina string
also falls through to Tencent). -/
def getChineseStockNameW (env : ProviderEnv) (code : List Char) : Option (List Char) :=
  match classifyMarket code with
  | none => none
  | some mp =>
    let sinaRes := getStockNameFromSinaW (env.sina code mp)
    if truthy sinaRes then sinaRes
    else getStockNameFromTencentW (env.tencent (tencentFinalCode code mp) mp)

/-- A record of one remote call that the resolver issued. -/
inductive ProviderCall where
  | sina (code mp : List Char) : ProviderCall
  | tencent (finalCode mp : List Char) : ProviderCall
deriving DecidableEq

/-- `getChineseStockName` instrumented with the list of provider calls it
performs, in order; its first component agrees with `getChineseStockName`. -/
def getChineseStockNameT (env : ProviderEnv) (code : List Char) :
    Option (List Char) × List ProviderCall :=
  match classifyMarket code with
  | none => (none, [])
  | some mp =>
    match sinaLookup env code mp with
    | some n => (some n, [.sina code mp])
    | none =>
      (tencentLookup env code mp, [.sina code mp, .tencent (tencentFinalCode code mp) mp])

/-! ## The static symbol table (`part_000` lines 23–38) -/

/-- `SYMBOL_MAP`, the static symbol table. -/
def SYMBOL_MAP : List (List Char × List Char) :=
  [("CL1!".data, "轻质原油期货".data), ("GC1!".data, "黄金期货".data),
   ("SI1!".data, "白银期货".data), ("HG1!".data, "铜期货".data),
   ("NG1!".data, "天然气期货".data), ("RB1!".data, "螺纹钢期货".data),
   ("IODEX".data, "铁矿石期货".data),
   ("DXY".data, "美元指数".data), ("XAUUSD".data, "黄金现货/美元".data),
   ("XAGUSD".data, "白银/美元".data), ("EURUSD".data, "欧元/美元".data),
   ("GBPUSD".data, "英镑/美元".data), ("USDJPY".data, "美元/日元".data),
   ("AUDUSD".data, "澳元/美元".data),
   ("BTCUSDT".data, "比特币/USDT".data), ("BTCUSD".data, "比特币/美元".data),
   ("ETHUSDT".data, "以太坊/USDT".data), ("ETHUSD".data, "以太坊/美元".data),
   ("US10Y".data, "美国10年期国债收益率".data), ("US02Y".data, "美国2年期国债收益率".data),
   ("SPX".data, "标普500指数".data), ("NDX".data, "纳斯达克100指数".data)]

/-- `SYMBOL_MAP[symbol]`: exact-key lookup. -/
def lookupSymbolMap (sym : List Char) : Option (List Char) :=
  (SYMBOL_MAP.find? (fun p => p.1 = sym)).map (fun p => p.2)

/-- The `/^\d{1,6}$/` guard of `part_000` `processMessage` step 2. -/
def isNum16 (s : List Char) : Bool :=
  decide (1 ≤ s.length) && decide (s.length ≤ 6) && s.all Char.isDigit

/-- The resolution chain of `part_000` `processMessage` (lines 128–134):
static table first, then — only for `/^\d{1,6}$/` symbols — the remote chain. -/
def resolveSymbol (env : ProviderEnv) (sym : List Char) : Option (List Char) :=
  match lookupSymbolMap sym with
  | some n => some n
  | none => if isNum16 sym then getChineseStockName env sym else none

/-- `resolveSymbol` instrumented with the provider calls it performs. -/
def resolveSymbolT (env : ProviderEnv) (sym : List Char) :
    Option (List Char) × List ProviderCall :=
  match lookupSymbolMap sym with
  | some n => (some n, [])
  | none => if isNum16 sym then getChineseStockNameT env sym else (none, [])

/-! ## The instrument-label matchers

Every extraction regex of the three drafts starts with `标的\s*[:：]`.  JS
regex matching is leftmost: the engine tries each start position in turn, so a
matcher `matchAt…` for one position is lifted to a leftmost scan by
`scanFirst`.  Because greedy sub-patterns here never overlap with what follows
them (whitespace, colon, digit and symbol classes are pairwise disjoint at
every juncture), maximal-munch `takeWhile`/`dropWhile` scanning is exactly the
backtracking regex semantics. -/

/-- Match `标的\s*[:：]` at the head of `l`; on success return the whitespace
run, the separator character actually present, and the remainder. -/
def labelAt (l : List Char) : Option (List Char × Char × List Char) :=
  if pfxOf "标的".data l then
    let rest := l.drop 2
    let ws1 := rest.takeWhile jsWs
    match rest.dropWhile jsWs with
    | c :: r2 => if c = ':' || c = '：' then some (ws1, c, r2) else none
    | [] => none
  else none

/-- Match `标的\s*[:：]\s*([A-Za-z0-9!_.-]+)` (`part_000` line 120) at the head
of `l`: returns (whole matched string, captured symbol, remainder). -/
def matchAt000 (l : List Char) : Option (List Char × List Char × List Char) :=
  match labelAt l with
  | none => none
  | some (ws1, sep, r2) =>
    let ws2 := r2.takeWhile jsWs
    let r3 := r2.dropWhile jsWs
    let sym := r3.takeWhile isSymCh
    if sym.isEmpty then none
    else some ('标' :: '的' :: ws1 ++ sep :: ws2 ++ sym, sym, r3.drop sym.length)

/-- Match `标的\s*[:：]\s*\d{5,6}` (`webhook.js` line 125, `part_001` line 150)
at the head of `l`: returns (label part up to the code, code, remainder).  The
full matched string is the label part followed by the code; greedy `{5,6}`
takes six digits when available, else five. -/
def matchAtCode (l : List Char) : Option (List Char × List Char × List Char) :=
  match labelAt l with
  | none => none
  | some (ws1, sep, r2) =>
    let ws2 := r2.takeWhile jsWs
    let r3 := r2.dropWhile jsWs
    let run := r3.takeWhile Char.isDigit
    if run.length < 5 then none
    else
      let code := run.take 6
      some ('标' :: '的' :: ws1 ++ sep :: ws2, code, r3.drop code.length)

/-- Does `[（(]\s*\d{5,6}\s*[)）]` match at the head of `l`? -/
def parenCodeHere : List Char → Bool
  | [] => false
  | c :: rest =>
    (c = '(' || c = '（') &&
      (let r1 := rest.dropWhile jsWs
       let ds := r1.takeWhile Char.isDigit
       let r2 := (r1.dropWhile Char.isDigit).dropWhile jsWs
       (ds.length = 5 || ds.length = 6) &&
       (match r2 with
        | c2 :: _ => c2 = ')' || c2 = '）'
        | [] => false))

/-- The `.*?[（(]\s*\d{5,6}\s*[)）]` tail of the already-formatted test: does a
parenthesized 5–6 digit code occur after only non-line-terminator characters? -/
def scanParenCode : List Char → Bool
  | [] => false
  | c :: rest => parenCodeHere (c :: rest) || (notLineTerm c && scanParenCode rest)

/-- `/标的\s*[:：].*?[（(]\s*\d{5,6}\s*[)）]/` matches at the head of `l`. -/
def alreadyFormattedAt (l : List Char) : Bool :=
  match labelAt l with
  | none => false
  | some (_, _, r2) => scanParenCode r2

/-- `webhook.js` line 119: does the already-formatted pattern match anywhere? -/
def alreadyFormatted : List Char → Bool
  | [] => false
  | c :: rest => alreadyFormattedAt (c :: rest) || alreadyFormatted rest

/-- The lazy `.*?\([^)]+\)` tail of the `part_001` parenthesis matcher: stop at
the first `(` that is followed by a nonempty run of non-`)` characters and a
`)`; every character skipped over must not be a line terminator.  Returns
(skipped middle, parenthesized content, remainder after the `)`). -/
def lazyToParen : List Char → Option (List Char × List Char × List Char)
  | [] => none
  | c :: rest =>
    if c = '(' ∧
        ¬(rest.takeWhile (fun d => d ≠ ')')).isEmpty = true ∧
        ¬(rest.dropWhile (fun d => d ≠ ')')).isEmpty = true then
      some ([], rest.takeWhile (fun d => d ≠ ')'),
            (rest.dropWhile (fun d => d ≠ ')')).tail)
    else if notLineTerm c then
      match lazyToParen rest with
      | some (mid, ct, af) => some (c :: mid, ct, af)
      | none => none
    else none

/-- Match `标的\s*[:：].*?\([^)]+\)` (`part_001` line 137) at the head of `l`:
returns (whole matched string, remainder). -/
def matchAtParen (l : List Char) : Option (List Char × List Char) :=
  match labelAt l with
  | none => none
  | some (ws1, sep, r2) =>
    match lazyToParen r2 with
    | none => none
    | some (mid, content, after) =>
      some ('标' :: '的' :: ws1 ++ sep :: mid ++ '(' :: content ++ [')'], after)

/-- Leftmost match of `\(([^)]+)\)` (`part_001` line 139), returning the
captured content. -/
def firstParenContent : List Char → Option (List Char)
  | [] => none
  | c :: rest =>
    if c = '(' ∧
        ¬(rest.takeWhile (fun d => d ≠ ')')).isEmpty = true ∧
        ¬(rest.dropWhile (fun d => d ≠ ')')).isEmpty = true then
      some (rest.takeWhile (fun d => d ≠ ')'))
    else firstParenContent rest

/-- Leftmost-position lifting of a single-position matcher: try each start
position from the left, returning the text before the match together with the
matcher's answer there.  This is the JS regex engine's position loop. -/
def scanFirst {α : Type} (m : List Char → Option α) : List Char → Option (List Char × α)
  | [] => none
  | c :: rest =>
    match m (c :: rest) with
    | some a => some ([], a)
    | none =>
      match scanFirst m rest with
      | some (pre, a) => some (c :: pre, a)
      | none => none

/-! ## `part_000` message processing -/

/-- `part_000` `processMessage` (lines 119–142).  `body.replace(pat, repl)`
with a string pattern replaces the first occurrence of `pat`; since the
matched string itself matches the extraction regex wherever it occurs, its
first occurrence is exactly the leftmost regex match, so the replacement is
performed at the match site. -/
def processMessage (env : ProviderEnv) (body : List Char) : List Char :=
  match scanFirst matchAt000 body with
  | none => body
  | some (pre, (_, sym, after)) =>
    match resolveSymbol env sym with
    | some n => pre ++ "标的: **".data ++ n ++ "(".data ++ sym ++ ")**".data ++ after
    | none => body

/-- The long-signal keywords of `getSignalPrefix` (`part_000` line 109),
lower-cased as the `/i` search is modelled by lower-casing both sides. -/
def longKws : List (List Char) :=
  ["多".data, "buy".data, "long".data, "看涨".data, "做多".data, "多头".data]

/-- The short-signal keywords of `getSignalPrefix` (`part_000` line 112). -/
def shortKws : List (List Char) :=
  ["空".data, "sell".data, "short".data, "看跌".data, "做空".data, "空头".data]

/-- Lower-casing for the `/i` flag (ASCII letters; the Chinese keywords are
unaffected by case). -/
def toLowerCL (l : List Char) : List Char := l.map Char.toLower

/-- `getSignalPrefix` of `part_000` (lines 108–116): the long-keyword
alternation is tested first and yields the green icon, then the short-keyword
alternation yields the red icon, otherwise no icon. -/
def getSignalPfx (message : List Char) : List Char :=
  if longKws.any (fun k => occursIn k (toLowerCL message)) then "🟢 ".data
  else if shortKws.any (fun k => occursIn k (toLowerCL message)) then "🔴 ".data
  else []

/-- The `[聚宝盆]` tag prepended by the `part_000` handler. -/
def tagCL : List Char := "[聚宝盆] ".data

/-- The final message formed by the `part_000` handler (lines 168–172): the
direction icon is chosen from the *processed* content, then the tag and the
processed content follow. -/
def finalMessage (env : ProviderEnv) (body : List Char) : List Char :=
  getSignalPfx (processMessage env body) ++ tagCL ++ processMessage env body

/-! ## `webhook.js` message processing (the debug-instrumented draft) -/

/-- The label keywords of the single-line pre-formatter
(`webhook.js` line 106), in their source order. -/
def preKeywords : List (List Char) :=
  ["周期:".data, "信号:".data, "级别:".data, "交易所时间:".data,
   "价格:".data, "原因:".data, "当前价格:".data]

/-- One global pass of `tempBody.replace(/[\s,]*(kw)/g, "\n$1")`: scanning left
to right, whenever the maximal run of whitespace/comma characters starting at
the current position is immediately followed by `kw`, the run is replaced by a
newline and scanning resumes after `kw`. -/
def replaceKwStep (kw : List Char) (l : List Char) : List Char :=
  match l with
  | [] => []
  | c :: rest =>
    if h : kw ≠ [] ∧ pfxOf kw (List.dropWhile isWsComma (c :: rest)) = true then
      '\n' :: (kw ++ replaceKwStep kw ((List.dropWhile isWsComma (c :: rest)).drop kw.length))
    else
      c :: replaceKwStep kw rest
termination_by l.length
decreasing_by
  · have hdw : ∀ (xs : List Char), (List.dropWhile isWsComma xs).length ≤ xs.length := by
      intro xs
      induction xs with
      | nil => simp
      | cons x t ih =>
        by_cases hx : isWsComma x
        · simp [List.dropWhile, hx]
          omega
        · simp [List.dropWhile, hx]
    have hpl : ∀ (a b : List Char), pfxOf a b = true → a.length ≤ b.length := by
      intro a
      induction a with
      | nil => intro b _; simp
      | cons x as ih =>
        intro b hb
        cases b with
        | nil => simp [pfxOf] at hb
        | cons y bs =>
          simp only [pfxOf, Bool.and_eq_true] at hb
          have := ih bs hb.2
          simp only [List.length_cons]
          omega
    have h1 := hdw (c :: rest)
    have h2 := hpl kw _ h.2
    have h3 : 1 ≤ kw.length := by
      cases kw with
      | nil => exact absurd rfl h.1
      | cons _ _ => simp
    have h4 := List.length_drop kw.length (List.dropWhile isWsComma (c :: rest))
    simp only [List.length_cons] at h1 ⊢
    omega
  · simp only [List.length_cons]
    omega

/-- The global `tempBody.replace(/,\s*/g, '\n')`: every comma together with the
following whitespace run becomes a newline.  The flag records whether the scan
is inside the whitespace run following a replaced comma. -/
def replaceCommaWsAux : Bool → List Char → List Char
  | _, [] => []
  | skipping, c :: rest =>
    if c = ',' then '\n' :: replaceCommaWsAux true rest
    else if skipping && jsWs c then replaceCommaWsAux true rest
    else c :: replaceCommaWsAux false rest

/-- `tempBody.replace(/,\s*/g, '\n')`. -/
def replaceCommaWs (l : List Char) : List Char := replaceCommaWsAux false l

/-- `split('\n').map(trim).filter(nonempty).join('\n')` (`webhook.js`
line 112). -/
def normalizeLines (l : List Char) : List Char :=
  (((splitOnCh '\n' l).map trimCL).filter (fun s => !s.isEmpty)).intersperse "\n".data
    |>.flatten

/-- The single-line pre-formatter (`webhook.js` lines 103–113): only for
bodies with no newline that contain `标的:` and a comma; each label keyword is
re-anchored to its own line, then commas become newlines, then lines are
trimmed and blank lines dropped. -/
def preFormat (body : List Char) : List Char :=
  if !body.contains '\n' && occursIn "标的:".data body && body.contains ',' then
    normalizeLines (replaceCommaWs (preKeywords.foldl (fun acc kw => replaceKwStep kw acc) body))
  else body

/-- The stock-name-enhancer stage of `webhook.js` `processMessage`
(lines 118–144), acting on the pre-formatted text: skip if the
already-formatted pattern matches; otherwise find `标的: <5-6 digits>`,
resolve, and on a truthy name replace the match by
`<label part><name> （<code>）`. -/
def nameEnhance (env : ProviderEnv) (m : List Char) : List Char :=
  if alreadyFormatted m then m
  else
    match scanFirst matchAtCode m with
    | none => m
    | some (pre, (labelPart, code, after)) =>
      match getChineseStockNameW env code with
      | some name =>
        if name.isEmpty then m
        else pre ++ labelPart ++ name ++ " （".data ++ code ++ "）".data ++ after
      | none => m

/-- `webhook.js` `processMessage` (lines 95–145): pre-format, then enhance.
The returned `finalContent` is modelled; the debug report is not. -/
def processMessageW (env : ProviderEnv) (body : List Char) : List Char :=
  nameEnhance env (preFormat body)

/-! ## `part_001` message processing -/

/-- The two-step target finder of the `part_001` handler (lines 133–163):
step 1 looks for `标的\s*[:：].*?\([^)]+\)` and extracts the trimmed content of
the first parenthesis group of the matched string; step 2 falls back to
`标的\s*[:：]\s*\d{5,6}`.  Returns (text before the match, stock code, text
after the match). -/
def findTarget001 (body : List Char) : Option (List Char × List Char × List Char) :=
  match scanFirst matchAtParen body with
  | some (pre, (matched, after)) =>
    match firstParenContent matched with
    | some raw => some (pre, trimCL raw, after)
    | none =>
      match scanFirst matchAtCode body with
      | some (pre2, (_, code, after2)) => some (pre2, code, after2)
      | none => none
  | none =>
    match scanFirst matchAtCode body with
    | some (pre2, (_, code, after2)) => some (pre2, code, after2)
    | none => none

/-- The rewriting step of the `part_001` handler (lines 165–176): if a target
was found and its code resolves to a truthy name, the whole matched string is
replaced by the normalized `标的: <name> (<code>)` form; otherwise the body is
unchanged. -/
def rewrite001 (env : ProviderEnv) (body : List Char) : List Char :=
  match findTarget001 body with
  | none => body
  | some (pre, code, after) =>
    match getChineseStockNameW env code with
    | some name =>
      if name.isEmpty then body
      else pre ++ "标的: ".data ++ name ++ " (".data ++ code ++ ")".data ++ after
    | none => body

/-! ## Digest rendering

Modelled from the spec: the Alert Segmenter, Alert Field Parser and Digest
Renderer described in spec §4.3–§4.6 are absent from `src/` (the drafts there
stop after the rewriting and icon steps), so the digest data model and
renderer below follow the spec's words: an `AlertRecord` carries the five
optional fields and a direction; a record is valid when at least two fields
are populated; rendering collapses adjacent duplicates of
`(instrument, direction, signalText)`, sorts by direction priority
(short, stop, long, neutral) then instrument (plain code-point order standing
in for the locale-aware compare), and degrades to the pre-digest text when no
valid record remains.  All functions are total: degradation, never failure. -/

/-- Trading direction of one alert (spec §3). -/
inductive Direction where
  | long : Direction
  | short : Direction
  | stop : Direction
  | neutral : Direction
deriving DecidableEq

/-- Modelled from the spec: parsed fields of one alert segment (spec §3). -/
structure AlertRecord where
  instrument : Option (List Char)
  period : Option (List Char)
  price : Option (List Char)
  signalText : Option (List Char)
  indicator : Option (List Char)
  direction : Direction
deriving DecidableEq

/-- Number of populated optional fields of a record. -/
def populatedCount (r : AlertRecord) : Nat :=
  [r.instrument.isSome, r.period.isSome, r.price.isSome,
   r.signalText.isSome, r.indicator.isSome].count true

/-- Modelled from the spec: a record is valid when at least two fields are
populated (spec §3, §4.6). -/
def validRecord (r : AlertRecord) : Bool :=
  decide (2 ≤ populatedCount r)

/-- Sort priority of directions (spec §4.6: short, stop, long, neutral). -/
def dirPriority : Direction → Nat
  | .short => 0
  | .stop => 1
  | .long => 2
  | .neutral => 3

/-- Direction icon used in a rendered bullet. -/
def dirIcon : Direction → List Char
  | .long => "🟢".data
  | .short => "🔴".data
  | .stop => "⛔".data
  | .neutral => "⚪".data

/-- Deduplication key (spec §4.6): `(instrument, direction, signalText)`. -/
def recKey (r : AlertRecord) : Option (List Char) × Direction × Option (List Char) :=
  (r.instrument, r.direction, r.signalText)

/-- Collapse a run of adjacent records sharing `recKey` with `prev`. -/
def dedupeLoop (prev : AlertRecord) : List AlertRecord → List AlertRecord
  | [] => []
  | b :: t =>
    if recKey prev = recKey b then dedupeLoop prev t
    else b :: dedupeLoop b t

/-- Modelled from the spec: collapse adjacent duplicate records (spec §4.6). -/
def dedupeAdjacent : List AlertRecord → List AlertRecord
  | [] => []
  | a :: t => a :: dedupeLoop a t

/-- Code-point lexicographic order on character lists. -/
def clLe : List Char → List Char → Bool
  | [], _ => true
  | _ :: _, [] => false
  | a :: as, b :: bs => a < b || (a = b && clLe as bs)

/-- Record order: direction priority first, then instrument. -/
def recLe (a b : AlertRecord) : Bool :=
  decide (dirPriority a.direction < dirPriority b.direction) ||
    (decide (dirPriority a.direction = dirPriority b.direction) &&
      clLe (a.instrument.getD []) (b.instrument.getD []))

/-- Insertion into a sorted record list. -/
def insertSorted (r : AlertRecord) : List AlertRecord → List AlertRecord
  | [] => [r]
  | x :: t => if recLe r x then r :: x :: t else x :: insertSorted r t

/-- Modelled from the spec: stable sort by direction priority then
instrument (spec §4.6). -/
def sortRecords (l : List AlertRecord) : List AlertRecord :=
  l.foldr insertSorted []

/-- Per-direction record count. -/
def countDir (d : Direction) (l : List AlertRecord) : Nat :=
  (l.filter (fun r => r.direction = d)).length

/-- Decimal rendering of a count. -/
def natToCL (n : Nat) : List Char := (toString n).data

/-- One optional field of a bullet, with its label and the fixed `|`
delimiter. -/
def renderField (label : List Char) : Option (List Char) → List Char
  | none => []
  | some v => " | ".data ++ label ++ ": ".data ++ v

/-- Modelled from the spec: one rendered bullet — icon, instrument, then the
optional fields in the fixed order period, price, signal, indicator
(spec §4.6). -/
def renderRecord (r : AlertRecord) : List Char :=
  "- ".data ++ dirIcon r.direction ++ " ".data ++ r.instrument.getD "?".data ++
    renderField "周期".data r.period ++ renderField "价格".data r.price ++
    renderField "信号".data r.signalText ++ renderField "指标".data r.indicator

/-- Modelled from the spec: the Digest Renderer (spec §4.6).  Filter to valid
records; if none remain, return the pre-digest text unchanged; otherwise
dedupe, sort, and render a header with per-direction counts followed by one
bullet per record. -/
def renderDigest (records : List AlertRecord) (preText : List Char) : List Char :=
  let valid := records.filter validRecord
  if valid.isEmpty then preText
  else
    let ordered := sortRecords (dedupeAdjacent valid)
    let header :=
      "共".data ++ natToCL ordered.length ++ "条: 空".data ++
        natToCL (countDir .short ordered) ++ " 损".data ++
        natToCL (countDir .stop ordered) ++ " 多".data ++
        natToCL (countDir .long ordered) ++ " 中".data ++
        natToCL (countDir .neutral ordered)
    header ++ (ordered.map renderRecord).foldl (fun acc b => acc ++ '\n' :: b) []

/-! ## Concrete environments for witnesses and counterexamples -/

/-- A network where both providers' fetches reject (for example because the
per-call abort fired). -/
def envDown : ProviderEnv :=
  { sina := fun _ _ => .thrown, tencent := fun _ _ => .thrown }

/-- A network where Sina answers every request with a well-formed quote line
naming `平安银行` and Tencent rejects. -/
def envPingAn : ProviderEnv :=
  { sina := fun _ _ => .response true "var hq_str=\"平安银行,10.52\";".data,
    tencent := fun _ _ => .thrown }

/-- A network where Sina answers every request with a quote line naming
`腾讯控股`. -/
def envTencentName : ProviderEnv :=
  { sina := fun _ _ => .response true "var hq_str=\"腾讯控股,300.0\";".data,
    tencent := fun _ _ => .thrown }

/-- A network where Sina answers every request with a quote line naming
`多氟多` (a name containing the long-signal keyword `多`). -/
def envDuoFuDuo : ProviderEnv :=
  { sina := fun _ _ => .response true "var hq_str=\"多氟多,18.8\";".data,
    tencent := fun _ _ => .thrown }

/-- Two sequential resolutions of the same code within one process lifetime,
each against the provider behaviour current at its time: the code keeps no
state between them. -/
def resolveTwice (e1 e2 : ProviderEnv) (code : List Char) :
    Option (List Char) × Option (List Char) :=
  (getChineseStockName e1 code, getChineseStockName e2 code)

/-! ## General lemmas about the scanners -/

/-- The instrumented resolver agrees with `getChineseStockName`. -/
theorem getChineseStockNameT_fst (env : ProviderEnv) (code : List Char) :
    (getChineseStockNameT env code).1 = getChineseStockName env code := by
  cases hc : classifyMarket code with
  | none => simp [getChineseStockNameT, getChineseStockName, hc]
  | some mp =>
    cases hs : sinaLookup env code mp with
    | none => simp [getChineseStockNameT, getChineseStockName, hc, hs]
    | some n => simp [getChineseStockNameT, getChineseStockName, hc, hs]

/-- `pfxOf` is transitive. -/
theorem pfxOf_trans : ∀ {p q l : List Char},
    pfxOf p q = true → pfxOf q l = true → pfxOf p l = true := by
  intro p
  induction p with
  | nil => intro q l _ _; rfl
  | cons a as ih =>
    intro q l h1 h2
    cases q with
    | nil => simp [pfxOf] at h1
    | cons b bs =>
      cases l with
      | nil => simp [pfxOf] at h2
      | cons c cs =>
        simp only [pfxOf, Bool.and_eq_true, decide_eq_true_eq] at h1 h2 ⊢
        exact ⟨h1.1.trans h2.1, ih h1.2 h2.2⟩

/-- An occurrence of a string is an occurrence of each of its prefixes. -/
theorem occursIn_true_mono {p q : List Char} (hpq : pfxOf p q = true) :
    ∀ {body : List Char}, occursIn q body = true → occursIn p body = true := by
  intro body
  induction body with
  | nil =>
    intro h
    simp only [occursIn, List.isEmpty_iff] at h
    subst h
    cases p with
    | nil => rfl
    | cons a as => simp [pfxOf] at hpq
  | cons c rest ih =>
    intro h
    simp only [occursIn, Bool.or_eq_true] at h ⊢
    rcases h with h1 | h2
    · exact Or.inl (pfxOf_trans hpq h1)
    · exact Or.inr (ih h2)

/-- Contrapositive form: if a prefix does not occur, the longer string does
not occur. -/
theorem occursIn_false_mono {p q body : List Char} (hpq : pfxOf p q = true)
    (h : occursIn p body = false) : occursIn q body = false := by
  by_contra hq
  rw [Bool.not_eq_false] at hq
  rw [occursIn_true_mono hpq hq] at h
  cases h

/-- If the label `标的` is not at the head, `labelAt` fails. -/
theorem labelAt_none {l : List Char} (h : pfxOf "标的".data l = false) :
    labelAt l = none := by
  simp [labelAt, h]

/-- If the label is not at the head, the `part_000` matcher fails. -/
theorem matchAt000_none {l : List Char} (h : pfxOf "标的".data l = false) :
    matchAt000 l = none := by
  simp [matchAt000, labelAt_none h]

/-- If the label is not at the head, the digit-code matcher fails. -/
theorem matchAtCode_none {l : List Char} (h : pfxOf "标的".data l = false) :
    matchAtCode l = none := by
  simp [matchAtCode, labelAt_none h]

/-- If the label is not at the head, the already-formatted test fails. -/
theorem alreadyFormattedAt_false {l : List Char} (h : pfxOf "标的".data l = false) :
    alreadyFormattedAt l = false := by
  simp [alreadyFormattedAt, labelAt_none h]

/-- If the label occurs nowhere, a label-anchored scan finds nothing. -/
theorem scanFirst_none {α : Type} {m : List Char → Option α}
    (hm : ∀ l, pfxOf "标的".data l = false → m l = none) :
    ∀ {body : List Char}, occursIn "标的".data body = false → scanFirst m body = none := by
  intro body
  induction body with
  | nil => intro _; rfl
  | cons c rest ih =>
    intro h
    simp only [occursIn, Bool.or_eq_false_iff] at h
    simp [scanFirst, hm _ h.1, ih h.2]

/-- If the label occurs nowhere, the already-formatted test fails. -/
theorem alreadyFormatted_false :
    ∀ {body : List Char}, occursIn "标的".data body = false →
      alreadyFormatted body = false := by
  intro body
  induction body with
  | nil => intro _; rfl
  | cons c rest ih =>
    intro h
    simp only [occursIn, Bool.or_eq_false_iff] at h
    simp [alreadyFormatted, alreadyFormattedAt_false h.1, ih h.2]

/-! ## Claims -/

/-- C1 counterexample: there is no process-lifetime cache.  Resolving
`600000` succeeds against a network where Sina answers, and a second
resolution of the same code in the same process against a now-failing network
yields `null` rather than the previously returned name — so no result was
stored in any cache, and no cache is consulted before the sources. -/
theorem c1_cache_counterexample :
    resolveTwice envPingAn envDown "600000".data = (some "平安银行".data, none) ∧
    (some "平安银行".data : Option (List Char)) ≠ none := by
  constructor
  · decide
  · decide

/-- C1 (amended): resolution tries the static symbol table, then — for
numeric codes with a classified market — provider A (Sina), then provider B
(Tencent), short-circuiting on the first success; no cache is consulted or
written, and a static-table hit issues no provider call. -/
theorem c1_resolution_order (env : ProviderEnv) (sym mp n : List Char) :
    (lookupSymbolMap sym = some n → resolveSymbolT env sym = (some n, [])) ∧
    (lookupSymbolMap sym = none → isNum16 sym = true →
      classifyMarket sym = some mp → sinaLookup env sym mp = some n →
      resolveSymbolT env sym = (some n, [ProviderCall.sina sym mp])) ∧
    (lookupSymbolMap sym = none → isNum16 sym = true →
      classifyMarket sym = some mp → sinaLookup env sym mp = none →
      resolveSymbolT env sym =
        (tencentLookup env sym mp,
         [ProviderCall.sina sym mp,
          ProviderCall.tencent (tencentFinalCode sym mp) mp])) := by
  refine ⟨fun h1 => ?_, fun h1 h2 h3 h4 => ?_, fun h1 h2 h3 h4 => ?_⟩
  · simp [resolveSymbolT, h1]
  · simp [resolveSymbolT, getChineseStockNameT, h1, h2, h3, h4]
  · simp [resolveSymbolT, getChineseStockNameT, h1, h2, h3, h4]

/-- C1 witness: the three stages at concrete inputs — a static-table hit with
no provider call, a Sina success with only the Sina call, and a Sina failure
falling through to Tencent with both calls. -/
theorem c1_resolution_order_witness :
    resolveSymbolT envDown "CL1!".data = (some "轻质原油期货".data, []) ∧
    resolveSymbolT envPingAn "600000".data =
      (some "平安银行".data, [ProviderCall.sina "600000".data "sh".data]) ∧
    resolveSymbolT envDown "600000".data =
      (tencentLookup envDown "600000".data "sh".data,
       [ProviderCall.sina "600000".data "sh".data,
        ProviderCall.tencent (tencentFinalCode "600000".data "sh".data) "sh".data]) :=
  ⟨(c1_resolution_order envDown "CL1!".data [] "轻质原油期货".data).1 (by decide),
   (c1_resolution_order envPingAn "600000".data "sh".data "平安银行".data).2.1
     (by decide) (by decide) (by decide) (by decide),
   (c1_resolution_order envDown "600000".data "sh".data []).2.2
     (by decide) (by decide) (by decide) (by decide)⟩

/-- C3 counterexample: `buy sell` contains both a long keyword and a short
keyword, and is classified long (green icon), not short — the long-keyword
set is tested first. -/
theorem c3_short_priority_counterexample :
    getSignalPfx "buy sell".data = "🟢 ".data ∧
    getSignalPfx "buy sell".data ≠ "🔴 ".data := by
  constructor
  · decide
  · decide

/-- C3 (amended): direction classification tests the long-keyword set first
(green icon), then the short-keyword set (red icon), else no icon; there is no
stop-loss category.  In particular a string containing both a long and a short
keyword is classified long. -/
theorem c3_direction_priority (m : List Char) :
    (longKws.any (fun k => occursIn k (toLowerCL m)) = true →
      getSignalPfx m = "🟢 ".data) ∧
    (longKws.any (fun k => occursIn k (toLowerCL m)) = false →
      shortKws.any (fun k => occursIn k (toLowerCL m)) = true →
      getSignalPfx m = "🔴 ".data) ∧
    (longKws.any (fun k => occursIn k (toLowerCL m)) = false →
      shortKws.any (fun k => occursIn k (toLowerCL m)) = false →
      getSignalPfx m = []) := by
  refine ⟨fun h1 => ?_, fun h1 h2 => ?_, fun h1 h2 => ?_⟩
  · simp [getSignalPfx, h1]
  · simp [getSignalPfx, h1, h2]
  · simp [getSignalPfx, h1, h2]

/-- C3 witness: a both-keywords message is green, a short-only message is red,
a keyword-free message gets no icon. -/
theorem c3_direction_priority_witness :
    getSignalPfx "buy 做空".data = "🟢 ".data ∧
    getSignalPfx "sell".data = "🔴 ".data ∧
    getSignalPfx "hello".data = [] :=
  ⟨(c3_direction_priority "buy 做空".data).1 (by decide),
   (c3_direction_priority "sell".data).2.1 (by decide) (by decide),
   (c3_direction_priority "hello".data).2.2 (by decide) (by decide)⟩

/-- C4: with zero valid records the digest renderer returns the pre-digest
text unchanged (renderer modelled from spec §4.6, as the digest stage is
absent from `src/`), and — the degradation present in the drafts — when no
instrument pattern can be extracted, `processMessage` returns its input
unchanged.  Both functions are total, so no input raises. -/
theorem c4_zero_valid_records_degrade (records : List AlertRecord)
    (preText : List Char) (env : ProviderEnv) (body : List Char)
    (h : records.filter validRecord = [])
    (h2 : scanFirst matchAt000 body = none) :
    renderDigest records preText = preText ∧ processMessage env body = body := by
  constructor
  · simp [renderDigest, h]
  · simp [processMessage, h2]

/-- C4 witness: a single one-field record is not valid, so rendering returns
the pre-digest text; a label-free body passes through `processMessage`. -/
theorem c4_zero_valid_records_degrade_witness :
    renderDigest
        [{ instrument := some "A".data, period := none, price := none,
           signalText := none, indicator := none, direction := Direction.neutral }]
        "标的: abc".data = "标的: abc".data ∧
    processMessage envDown "hello world".data = "hello world".data :=
  c4_zero_valid_records_degrade _ _ envDown _ (by decide) (by decide)

/-- C5: every provider-failure outcome (thrown network error or abort,
non-2xx response, empty payload) yields `null` rather than an exception — the
lookup functions are total into `Option` — and when provider A yields `null`
for a classified code, `getChineseStockName` returns exactly provider B's
answer. -/
theorem c5_provider_failures_null_fallback (env : ProviderEnv)
    (code mp text : List Char)
    (hc : classifyMarket code = some mp)
    (hs : getStockNameFromSina (env.sina code mp) = none) :
    getStockNameFromSina .thrown = none ∧
    getStockNameFromSina (.response false text) = none ∧
    getStockNameFromSina (.response true []) = none ∧
    getStockNameFromTencent .thrown = none ∧
    getStockNameFromTencent (.response false text) = none ∧
    getStockNameFromTencent (.response true []) = none ∧
    getStockNameFromSinaW .thrown = none ∧
    getStockNameFromSinaW (.response false text) = none ∧
    getChineseStockName env code = tencentLookup env code mp := by
  refine ⟨rfl, rfl, rfl, rfl, rfl, rfl, rfl, rfl, ?_⟩
  unfold getChineseStockName sinaLookup
  rw [hc]
  simp [hs]

/-- C5 witness: with both fetches rejecting, the resolution of `600519`
equals the Tencent lookup's answer (here `null` as well), with no exception
path involved. -/
theorem c5_provider_failures_null_fallback_witness :
    getChineseStockName envDown "600519".data =
      tencentLookup envDown "600519".data "sh".data :=
  (c5_provider_failures_null_fallback envDown "600519".data "sh".data []
      (by decide) rfl).2.2.2.2.2.2.2.2

/-- C6 counterexample: for the 3-digit HK-style code `700`, provider A's
request interpolates the code verbatim — `https://hq.sinajs.cn/list=hk700`,
which does not contain the padded form `00700` — while only provider B's
request is zero-padded. -/
theorem c6_sina_unpadded_counterexample :
    sinaUrl "700".data "hk".data = "https://hq.sinajs.cn/list=hk700".data ∧
    occursIn "00700".data (sinaUrl "700".data "hk".data) = false ∧
    tencentUrl "700".data "hk".data = "https://qt.gtimg.cn/q=hk00700".data := by
  refine ⟨by decide, by decide, by decide⟩

/-- C6 (amended): 1–5 digit codes classify as `hk` and are zero-padded to five
digits in provider B's request only (provider A receives them unpadded);
6-digit codes starting `6` or `5` classify as `sh`, starting `0`, `3` or `1`
as `sz`; any unclassified code resolves to `null` with no provider call. -/
theorem c6_market_classification (env : ProviderEnv) (code : List Char) :
    (1 ≤ code.length → code.length ≤ 5 → code.all Char.isDigit = true →
      classifyMarket code = some "hk".data ∧
      tencentUrl code "hk".data = "https://qt.gtimg.cn/q=hk".data ++ padStart5 code ∧
      sinaUrl code "hk".data = "https://hq.sinajs.cn/list=hk".data ++ code) ∧
    (code.length = 6 → code.all Char.isDigit = true →
      (code.head? = some '6' ∨ code.head? = some '5') →
      classifyMarket code = some "sh".data) ∧
    (code.length = 6 → code.all Char.isDigit = true →
      (code.head? = some '0' ∨ code.head? = some '3' ∨ code.head? = some '1') →
      classifyMarket code = some "sz".data) ∧
    (classifyMarket code = none → getChineseStockNameT env code = (none, [])) := by
  refine ⟨fun h1 h2 h3 => ⟨?_, rfl, rfl⟩, fun h1 h2 h3 => ?_, fun h1 h2 h3 => ?_,
    fun h => ?_⟩
  · simp [classifyMarket, h1, h2, h3]
  · rcases h3 with h3 | h3 <;> simp [classifyMarket, h1, h2, h3]
  · rcases h3 with h3 | h3 | h3 <;> simp [classifyMarket, h1, h2, h3]
  · simp [getChineseStockNameT, h]

/-- C6 witness: the four classification outcomes at concrete codes, with the
padding facts for the HK-style code `700`. -/
theorem c6_market_classification_witness :
    (classifyMarket "700".data = some "hk".data ∧
      tencentUrl "700".data "hk".data =
        "https://qt.gtimg.cn/q=hk".data ++ padStart5 "700".data ∧
      sinaUrl "700".data "hk".data =
        "https://hq.sinajs.cn/list=hk".data ++ "700".data) ∧
    classifyMarket "600519".data = some "sh".data ∧
    classifyMarket "000001".data = some "sz".data ∧
    getChineseStockNameT envDown "900000".data = (none, []) :=
  ⟨(c6_market_classification envDown "700".data).1 (by decide) (by decide) (by decide),
   (c6_market_classification envDown "600519".data).2.1 (by decide) (by decide)
     (Or.inl (by decide)),
   (c6_market_classification envDown "000001".data).2.2.1 (by decide) (by decide)
     (Or.inl (by decide)),
   (c6_market_classification envDown "900000".data).2.2.2 (by decide)⟩

/-- C10: the direction icon is chosen by case-insensitive keyword search over
the whole processed message — the text after name substitution — so whenever a
long keyword occurs anywhere in it (in particular only inside a resolved
instrument name), the final message carries the green long icon. -/
theorem c10_icon_from_processed_text (env : ProviderEnv) (body : List Char)
    (h : longKws.any (fun k => occursIn k (toLowerCL (processMessage env body))) = true) :
    finalMessage env body = "🟢 ".data ++ tagCL ++ processMessage env body := by
  unfold finalMessage getSignalPfx
  rw [if_pos h]

/-- C10 witness: the body `标的: 600111` contains no direction keyword, but the
resolved name `多氟多` does, so the final message is green-prefixed. -/
theorem c10_icon_from_processed_text_witness :
    finalMessage envDuoFuDuo "标的: 600111".data =
      "🟢 ".data ++ tagCL ++ processMessage envDuoFuDuo "标的: 600111".data :=
  c10_icon_from_processed_text envDuoFuDuo _ (by decide)

/-- C2 counterexample: the `part_001` rewriting step does not leave an
already-formatted reference untouched.  On `标的: X(00700)` — an instrument
label followed by a `name(code)` form — it extracts `00700` from the
parentheses, re-resolves it, and rewrites the substring to
`标的: 腾讯控股 (00700)`, altering the text. -/
theorem c2_rewrap_counterexample :
    rewrite001 envTencentName "标的: X(00700)".data = "标的: 腾讯控股 (00700)".data ∧
    rewrite001 envTencentName "标的: X(00700)".data ≠ "标的: X(00700)".data := by
  constructor
  · decide
  · decide

/-- C2 (amended): only the `webhook.js` rewriting step detects an existing
`标的 … (5–6 digit code)` form and leaves the text untouched (here for any
body that disables the single-line pre-formatter by containing a newline);
the `part_001` variant instead re-resolves the code and rewrites the substring
to the normalized `标的: name (code)` form. -/
theorem c2_already_formatted_untouched (env : ProviderEnv) (body : List Char)
    (hn : '\n' ∈ body)
    (hf : alreadyFormatted body = true) :
    processMessageW env body = body := by
  have hpre : preFormat body = body := by
    simp [preFormat]
    intro h1
    exact absurd hn h1
  simp [processMessageW, hpre, nameEnhance, hf]

/-- C2 witness: a two-line body whose first line is already in
`标的: name(code)` form passes through `webhook.js` processing unchanged. -/
theorem c2_already_formatted_untouched_witness :
    processMessageW envDown "标的: 腾讯(00700)\n周期: 5".data =
      "标的: 腾讯(00700)\n周期: 5".data :=
  c2_already_formatted_untouched envDown _ (by decide) (by decide)

/-- C7 counterexample: with two occurrences of `标的: 600000` in one body,
only the first is rewritten — the bare tagged form still occurs in the
output, contradicting replace-every-occurrence. -/
theorem c7_single_replacement_counterexample :
    processMessage envPingAn "标的: 600000 标的: 600000".data =
      "标的: **平安银行(600000)** 标的: 600000".data ∧
    occursIn "标的: 600000".data
      (processMessage envPingAn "标的: 600000 标的: 600000".data) = true := by
  constructor
  · decide
  · decide

/-- C7 (amended): `processMessage` matches only the first labelled occurrence
and replaces only it: for a body beginning with `标的: 600000` whose remainder
does not extend the symbol, the remainder — including any further labelled
occurrences — is carried through verbatim after the single replacement. -/
theorem c7_first_occurrence_only (env : ProviderEnv) (rest name : List Char)
    (hrest : List.takeWhile isSymCh rest = [])
    (hname : getChineseStockName env "600000".data = some name) :
    processMessage env ("标的: 600000".data ++ rest) =
      "标的: **".data ++ name ++ "(600000)**".data ++ rest := by
  have hmatch : matchAt000
      ('标' :: '的' :: ':' :: ' ' :: '6' :: '0' :: '0' :: '0' :: '0' :: '0' :: rest) =
      some ("标的: 600000".data, "600000".data, rest) := by
    simp [matchAt000, labelAt, pfxOf, List.takeWhile, List.dropWhile, jsWs, isSymCh, hrest]
  have hmap : lookupSymbolMap "600000".data = none := by decide
  have hnum : isNum16 "600000".data = true := by decide
  simp [processMessage, scanFirst, hmatch, resolveSymbol, hmap, hnum, hname]

/-- C7 witness: the amended behaviour at a remainder that itself contains a
second labelled occurrence. -/
theorem c7_first_occurrence_only_witness :
    processMessage envPingAn ("标的: 600000".data ++ " 标的: 600000".data) =
      "标的: **".data ++ "平安银行".data ++ "(600000)**".data ++ " 标的: 600000".data :=
  c7_first_occurrence_only envPingAn " 标的: 600000".data "平安银行".data
    (by decide) (by decide)

/-- C9: a body in which the instrument label `标的` never occurs passes
through both drafts' processing as the identity — no matcher fires, the
pre-formatter requires the label, and the already-formatted test requires it
too. -/
theorem c9_no_label_identity (env : ProviderEnv) (body : List Char)
    (h : occursIn "标的".data body = false) :
    processMessage env body = body ∧ processMessageW env body = body := by
  have h000 := scanFirst_none (fun l hl => matchAt000_none hl) h
  have hcode := scanFirst_none (fun l hl => matchAtCode_none hl) h
  have haf : alreadyFormatted body = false := alreadyFormatted_false h
  have h2 : occursIn "标的:".data body = false := occursIn_false_mono (by decide) h
  have hpre : preFormat body = body := by simp [preFormat, h2]
  exact ⟨by simp [processMessage, h000],
         by simp [processMessageW, hpre, nameEnhance, haf, hcode]⟩

/-- C9 witness: a label-free alert body is returned unchanged by both
drafts. -/
theorem c9_no_label_identity_witness :
    processMessage envDown "信号: 多信号, 价格: 12".data =
      "信号: 多信号, 价格: 12".data ∧
    processMessageW envDown "信号: 多信号, 价格: 12".data =
      "信号: 多信号, 价格: 12".data :=
  c9_no_label_identity envDown _ (by decide)
